import Mathlib

/-!
Shallow embedding of BoiseStatePlanetary/transit_utils
(src/transit_utils/transit_utils.py) in Lean 4, together with theorems
settling the specification claims about the signal-conditioning routines
(median_boxcar_filter, bindata, flag_outliers) and the peripheral helpers
(transit_duration, fit_eclipse_bottom).

Modelling conventions:
- numpy floating-point values are modelled as exact rationals; the data
  channel of an array that may hold not-a-number values is modelled as
  List (Option Rat) with none standing for NaN;
- python exceptions are modelled with Except PyError; the exception
  message strings are elided, only the exception class is kept;
- division by zero in numpy produces inf or nan (with a warning, not an
  exception); in every place the source divides, the only consumer of a
  possibly inf or nan quotient is a comparison with a finite threshold,
  which is false for both inf and nan, so the embedding tests the divisor
  for zero explicitly and returns the comparison result false in that case;
- the square roots appearing in the per-bin error estimate of bindata are
  handled by encoding the (nonnegative) error value e by its square e*e,
  a bijective encoding on nonnegative reals: e = mad(x)/sqrt(n) is stored
  as mad(x)^2/n and e = nanstd(x)/sqrt(n) as var(x)/n. The encoding maps
  0 to 0 and the floor constant 1.0 to 1, and preserves the zero test the
  source performs on the error value;
- the closed-form arcsine formulas of transit_duration use np.arcsin,
  np.sqrt and np.pi; these transcendental leaf functions are taken as
  explicit parameters (asin, sq : Rat -> Rat, piv : Rat) so that the
  embedding stays executable; none of the claims depends on their values.
-/

attribute [local semireducible] Rat.mul Rat.add Rat.inv Rat.sub Rat.ofScientific

/-- Python exception classes that the embedded fragment can raise.
Message strings are elided. -/
inductive PyError where
  | valueError : PyError
  | nameError : PyError
deriving DecidableEq, Repr

/-- Decidable equality of Except results, used to evaluate the embedded
functions at concrete inputs inside proofs. -/
instance {ε α : Type} [DecidableEq ε] [DecidableEq α] :
    DecidableEq (Except ε α) := fun x y =>
  match x, y with
  | .error u, .error v =>
    if h : u = v then .isTrue (by rw [h])
    else .isFalse (fun hc => h (Except.error.inj hc))
  | .ok u, .ok v =>
    if h : u = v then .isTrue (by rw [h])
    else .isFalse (fun hc => h (Except.ok.inj hc))
  | .error _, .ok _ => .isFalse (fun hc => Except.noConfusion hc)
  | .ok _, .error _ => .isFalse (fun hc => Except.noConfusion hc)

/-- The params object consumed by the routines: orbital period, mid-transit
time, radius ratio, impact parameter, semi-major axis (fields in the order
they are documented in the source docstrings). -/
structure Params where
  per : ℚ
  T0 : ℚ
  p : ℚ
  b : ℚ
  a : ℚ

/-- np.median of a one-dimensional array: sort, take the middle element for
odd length, the mean of the two middle elements for even length. The source
only ever applies it to non-empty arrays; the value on the empty list is
irrelevant junk (numpy would return nan with a warning). -/
def npMedian (l : List ℚ) : ℚ :=
  let s := l.insertionSort (· ≤ ·)
  let n := l.length
  if n % 2 = 1 then s.getD (n / 2) 0
  else if n = 0 then 0
  else (s.getD (n / 2 - 1) 0 + s.getD (n / 2) 0) / 2

/-- np.mean of a one-dimensional array of finite values. -/
def npMean (l : List ℚ) : ℚ := l.sum / l.length

/-- np.nanmean over an array that may hold NaNs: the mean of the non-NaN
entries, and NaN (modelled none) when no non-NaN entry exists (numpy warns
"Mean of empty slice" and returns nan in that case). -/
def npNanMean (l : List (Option ℚ)) : Option ℚ :=
  let v := l.filterMap id
  if v.isEmpty then none else some (npMean v)

/-- np.nanmedian over an array that may hold NaNs: the median of the
non-NaN entries, NaN (none) when there are none. -/
def npNanMedian (l : List (Option ℚ)) : Option ℚ :=
  let v := l.filterMap id
  if v.isEmpty then none else some (npMedian v)

/-- The default scale constant of statsmodels.robust.scale.mad:
scipy.stats.norm.ppf(3/4), as the exact value of the double the library
uses. -/
def madC : ℚ := 0.6744897501960817

/-- statsmodels.robust.scale.mad of a one-dimensional array with the
default center np.median: median of the absolute deviations from the
median, divided by madC. -/
def madScale (l : List ℚ) : ℚ :=
  npMedian (l.map (fun x => |x - npMedian l| / madC))

/-- Population variance, the square of np.nanstd (default ddof = 0) on a
NaN-free array. -/
def varPop (l : List ℚ) : ℚ :=
  (l.map (fun x => (x - npMean l) ^ 2)).sum / l.length

/-- np.min of a non-empty array (junk 0 on the empty array, where numpy
raises ValueError; the caller in bindata guards that case). -/
def npMin (l : List ℚ) : ℚ :=
  match l with
  | [] => 0
  | x :: xs => xs.foldl min x

/-- np.max of a non-empty array (junk 0 on the empty array). -/
def npMax (l : List ℚ) : ℚ :=
  match l with
  | [] => 0
  | x :: xs => xs.foldl max x

/-- np.arange(start, stop, step) for a nonzero step: the values
start + i * step for 0 <= i < ceil((stop - start) / step). -/
def npArange (start stop step : ℚ) : List ℚ :=
  (List.range (⌈(stop - start) / step⌉).toNat).map
    (fun i : ℕ => start + (i : ℚ) * step)

/-- Normalisation of one python slice endpoint for a list of length m:
negative indices count from the end, and both ends clamp into [0, m]. -/
def pySliceIdx (m : ℕ) (i : ℤ) : ℕ :=
  if i < 0 then (i + m).toNat else min i.toNat m

/-- Python slice l[i:j] (step 1) with full python endpoint semantics. -/
def pySlice (l : List α) (i j : ℤ) : List α :=
  let s := pySliceIdx l.length i
  let e := pySliceIdx l.length j
  (l.drop s).take (e - s)

/-- scipy.signal.medfilt on a one-dimensional array with an odd kernel
size: each output sample is the median of the kernel-sized window centered
on it, the array being zero-padded at both true edges. -/
def medfilt (vol : List ℚ) (kernel_size : ℕ) : List ℚ :=
  let half := kernel_size / 2
  let padded := List.replicate half (0 : ℚ) ++ vol ++ List.replicate half (0 : ℚ)
  (List.range vol.length).map (fun i => npMedian ((padded.drop i).take kernel_size))

/-- median_boxcar_filter (src lines 143-181). The endpoints argument only
supports "reflect"; any other value leaves the local variable filt unbound
and the final return statement raises NameError. Note that the reflection
slices use the window_length as given, while the final recentring slice
uses the value after the odd normalisation. -/
def median_boxcar_filter (data : List ℚ) (window_length : ℕ) (endpoints : String) :
    Except PyError (List ℚ) :=
  if endpoints = "reflect" then
    let last_index : ℤ := (data.length : ℤ) - 1
    let filter_array :=
      (pySlice data 0 (window_length : ℤ)).reverse ++ data ++
        pySlice data (last_index - (window_length : ℤ)) last_index
    let wl := if window_length % 2 = 0 then window_length + 1 else window_length
    let filt := medfilt filter_array wl
    .ok (pySlice filt (wl : ℤ) ((wl : ℤ) + last_index + 1))
  else .error .nameError

/-- transit_duration as first defined at src lines 45-79 (later shadowed by
the re-definition at lines 254-285). asin, sq, piv stand for np.arcsin,
np.sqrt and np.pi. -/
def transit_duration_first (asin sq : ℚ → ℚ) (piv : ℚ) (params : Params)
    (which_duration : String) : Except PyError ℚ :=
  let period := params.per
  let rp := params.p
  let b := params.b
  let sma := params.a
  if which_duration = "full" then
    .ok (period / piv * asin (sq ((1 + rp) ^ 2 - b ^ 2) / sma))
  else if which_duration = "center" then
    .ok (period / piv * asin (sq (1 - b ^ 2) / sma))
  else if which_duration = "short" then
    .ok (period / piv * asin (sq ((1 - rp) ^ 2 - b ^ 2) / sma))
  else .error .valueError

/-- transit_duration as re-defined at src lines 254-285; this is the
definition visible at module level (it shadows the first one). -/
def transit_duration (asin sq : ℚ → ℚ) (piv : ℚ) (params : Params)
    (which_duration : String) : Except PyError ℚ :=
  let period := params.per
  let rp := params.p
  let b := params.b
  let sma := params.a
  if which_duration = "full" then
    .ok (period / piv * asin (sq ((1 + rp) ^ 2 - b ^ 2) / sma))
  else if which_duration = "center" then
    .ok (period / piv * asin (sq (1 - b ^ 2) / sma))
  else if which_duration = "short" then
    .ok (period / piv * asin (sq ((1 - rp) ^ 2 - b ^ 2) / sma))
  else .error .valueError

/-- calc_eclipse_time (src lines 28-43). -/
def calc_eclipse_time (params : Params) : ℚ := params.T0 + 0.5 * params.per

/-- Body of fit_eclipse_bottom after the selector dispatch (src lines
109-119): find the in-eclipse points with the external isInTransit
predicate (parameter inT, called with boolOutput=True so it returns a
boolean mask of the same length as its time argument) and reduce the
masked data with the chosen statistic. The source guards the reduction
with ind.size greater than zero, which is the length of the mask, not the
number of selected points. -/
def fit_eclipse_bottom_go (calc_method : List (Option ℚ) → Option ℚ)
    (asin sq : ℚ → ℚ) (piv : ℚ)
    (inT : List ℚ → ℚ → ℚ → ℚ → List Bool)
    (time : List ℚ) (data : List (Option ℚ)) (params : Params) :
    Except PyError (Option ℚ) :=
  let period := params.per
  let TE := calc_eclipse_time params
  match transit_duration asin sq piv params "short" with
  | .error e => .error e
  | .ok dur =>
    let ind := inT time TE period (0.5 * dur)
    if 0 < ind.length then
      .ok (calc_method ((data.zip ind).filterMap
        (fun q => if q.2 = true then some q.1 else none)))
    else .ok (some 0)

/-- fit_eclipse_bottom (src lines 81-119): dispatch on zero_eclipse_method
first (raising ValueError for an unrecognised method), then reduce the
in-eclipse samples. The result is a possibly-NaN float, modelled
Option Rat. -/
def fit_eclipse_bottom (asin sq : ℚ → ℚ) (piv : ℚ)
    (inT : List ℚ → ℚ → ℚ → ℚ → List Bool)
    (time : List ℚ) (data : List (Option ℚ)) (params : Params)
    (zero_eclipse_method : String) : Except PyError (Option ℚ) :=
  if zero_eclipse_method = "mean" then
    fit_eclipse_bottom_go npNanMean asin sq piv inT time data params
  else if zero_eclipse_method = "median" then
    fit_eclipse_bottom_go npNanMedian asin sq piv inT time data params
  else .error .valueError

/-- The candidate bin centers of bindata (src lines 215-216):
np.arange(np.min(time) + 0.5 * binsize, np.max(time) - 0.5 * binsize,
binsize). -/
def bindataCandidates (time : List ℚ) (binsize : ℚ) : List ℚ :=
  npArange (npMin time + 0.5 * binsize) (npMax time - 0.5 * binsize) binsize

/-- The valid samples of one candidate bin (src lines 233-237): the data
values whose time lies within binsize of the candidate center (note the
full window width is twice binsize), with NaN values dropped. The model
pairs time and data positionally, which matches the source when the two
arrays have equal length. -/
def validSamples (time : List ℚ) (data : List (Option ℚ)) (binsize : ℚ)
    (c : ℚ) : List ℚ :=
  ((((time.zip data).filter (fun q => decide (|c - q.1| ≤ binsize))).map
    Prod.snd).filterMap id)

/-- The bin value function of bindata (src lines 222-225): np.nanmedian for
bin_calc "median", np.nanmean for "mean" (applied to already NaN-free
samples), and otherwise the name bin_calc_func is never bound, so its later
call raises NameError. -/
def bin_calc_func (bin_calc : String) (x : List ℚ) : Except PyError ℚ :=
  if bin_calc = "median" then .ok (npMedian x)
  else if bin_calc = "mean" then .ok (npMean x)
  else .error .nameError

/-- The per-bin error function of bindata (src lines 227-230), in the
squared encoding: mad(x)/sqrt(len(x)) is encoded mad(x)^2/len(x) and
np.nanstd(x)/sqrt(len(x)) is encoded varPop(x)/len(x). An unrecognised
err_calc leaves err_calc_func unbound, raising NameError when called. -/
def err_calc_func (err_calc : String) (x : List ℚ) : Except PyError ℚ :=
  if err_calc = "mad" then .ok (madScale x ^ 2 / (x.length : ℚ))
  else if err_calc = "std" then .ok (varPop x / (x.length : ℚ))
  else .error .nameError

/-- The error estimate of a bin in the squared encoding, as a total
function of the selector (defined for the two supported selectors; the
value on other selectors is irrelevant junk). -/
def err_calc_sq (err_calc : String) (x : List ℚ) : ℚ :=
  if err_calc = "mad" then madScale x ^ 2 / (x.length : ℚ)
  else varPop x / (x.length : ℚ)

/-- The loop of bindata over the candidate centers (src lines 232-249).
A candidate center is skipped when no sample lies in its window or when
all samples in its window are NaN; otherwise the center, the bin value
and the (floored) bin error are emitted. The source builds the three
output arrays with np.append in ascending candidate order, which this
recursion reproduces front to back. -/
def bindataLoop (time : List ℚ) (data : List (Option ℚ)) (binsize : ℚ)
    (bin_calc err_calc : String) :
    List ℚ → Except PyError (List ℚ × List ℚ × List ℚ)
  | [] => .ok ([], [], [])
  | c :: rest =>
    let sel := ((time.zip data).filter
      (fun q => decide (|c - q.1| ≤ binsize))).map Prod.snd
    if sel.isEmpty then bindataLoop time data binsize bin_calc err_calc rest
    else
      let cur_data := validSamples time data binsize c
      if cur_data.isEmpty then bindataLoop time data binsize bin_calc err_calc rest
      else
        match bin_calc_func bin_calc cur_data with
        | .error e => .error e
        | .ok v =>
          match err_calc_func err_calc cur_data with
          | .error e => .error e
          | .ok try_error =>
            match bindataLoop time data binsize bin_calc err_calc rest with
            | .error e => .error e
            | .ok (bt, bd, be) =>
              .ok (c :: bt, v :: bd,
                (if try_error = 0 then 1 else try_error) :: be)

/-- bindata (src lines 183-251). np.min on the empty time array raises
ValueError, and np.arange with a zero step also raises; otherwise the
candidate centers are scanned as in bindataLoop. The third component of
the result carries the squared encoding of the error channel. -/
def bindata (time : List ℚ) (data : List (Option ℚ)) (binsize : ℚ)
    (bin_calc err_calc : String) :
    Except PyError (List ℚ × List ℚ × List ℚ) :=
  if time.isEmpty then .error .valueError
  else if binsize = 0 then .error .valueError
  else bindataLoop time data binsize bin_calc err_calc
    (bindataCandidates time binsize)

/-- The rows of copy_data.reshape(-1, 5) (src lines 313-317): the reshape
width is the literal 5 in the source, independent of outlier_group. Only
called when 5 divides the length. -/
def reshapeRows5 (l : List ℚ) : List (List ℚ) :=
  (List.range (l.length / 5)).map (fun i => (l.drop (5 * i)).take 5)

/-- flag_outliers (src lines 287-324). The padded copy is reshaped with
the hard-coded row width 5; numpy raises ValueError when 5 does not divide
the padded length, and the subsequent broadcast of the outer products
(rows of width outlier_group) against the reshaped data (rows of width 5)
raises ValueError unless outlier_group is 5 or 1 - both failures are
modelled none. In numpy the normalized deviation of an element of a block
whose mad is zero is inf or nan (division by zero warns, it does not
raise), and both compare false against the finite threshold, so such an
element is flagged as an outlier; the model tests the divisor for zero
explicitly. -/
def flag_outliers (data : List ℚ) (outlier_group : ℕ) (num_std_desired : ℚ) :
    Option (List Bool) :=
  if outlier_group = 0 then none
  else
    let num_extra_elements := outlier_group - data.length % outlier_group
    let copy_data := data ++ List.replicate num_extra_elements (0 : ℚ)
    if copy_data.length % 5 = 0 ∧ (outlier_group = 5 ∨ outlier_group = 1) then
      let ind := ((reshapeRows5 copy_data).map (fun r =>
        let std := madScale r
        let med := npMedian r
        r.map (fun x =>
          if std = 0 then false else decide (|x - med| / std < num_std_desired)))).flatten
      some (ind.take data.length)
    else none

/-- Claim C10: the module defines transit_duration twice, the second
definition shadowing the first; the two definitions return the same value
or raise the same error for every params and every which_duration, so the
shadowing does not change the public behavior. -/
theorem transit_duration_shadowing_equiv (asin sq : ℚ → ℚ) (piv : ℚ)
    (params : Params) (which_duration : String) :
    transit_duration_first asin sq piv params which_duration =
      transit_duration asin sq piv params which_duration := rfl

/-- Claim C1 (counterexample): on data [1,1,1,1,1,100,1,1,1,1] with
block_size 5 and threshold 10, flag_outliers does not return the mask that
retains everything but index 5: every block of five has median absolute
deviation zero, so every normalized deviation is a division by zero (inf
or nan), which fails the comparison with the threshold for every element,
including the nine elements the claim says are retained. -/
theorem flag_outliers_scenario_counterexample :
    flag_outliers [1, 1, 1, 1, 1, 100, 1, 1, 1, 1] 5 10 ≠
      some [true, true, true, true, true, false, true, true, true, true] := by
  decide

/-- Claim C1 (amended): on data [1,1,1,1,1,100,1,1,1,1] with block_size 5
and threshold 10, flag_outliers flags every element as an outlier (an
all-false mask), because each block of five (including the zero-padding
block) has zero median absolute deviation. -/
theorem flag_outliers_scenario_all_flagged :
    flag_outliers [1, 1, 1, 1, 1, 100, 1, 1, 1, 1] 5 10 =
      some (List.replicate 10 false) := by
  decide

/-- Claim C2 (code bug): flag_outliers reshapes the padded data with the
hard-coded row width 5 instead of outlier_group, so for data [1,2,3,4]
with block_size 3 (padded length 6) the reshape raises ValueError instead
of grouping into blocks of 3 and returning a length-4 mask. -/
theorem flag_outliers_blocksize_three_raises :
    flag_outliers [1, 2, 3, 4] 3 10 = none := by
  decide

/-- Claim C4 (counterexample): bindata called with the unsupported
bin_calc selector "bogus" on time [0], data [1] raises no error at all -
the candidate-center range is empty, so the unbound selector function is
never called and the three empty arrays are returned normally, refuting
the claim that every out-of-set selector raises a synchronous
invalid-configuration error. -/
theorem bindata_invalid_selector_no_error :
    bindata [0] [some 1] 1 "bogus" "mad" = .ok ([], [], []) := rfl

/-- Boolean-mask selection with an all-false mask selects nothing. -/
theorem filterMap_zip_replicate_false (l : List (Option ℚ)) (n : ℕ) :
    (l.zip (List.replicate n false)).filterMap
      (fun q => if q.2 = true then some q.1 else none) = [] := by
  induction l generalizing n with
  | nil => simp
  | cons x xs ih =>
    cases n with
    | zero => simp
    | succ m => simpa [List.replicate_succ] using ih m

/-- Claim C3 (code bug): when the external in-eclipse membership predicate
selects no samples, fit_eclipse_bottom on a non-empty time array does not
return 0.0: the guard compares the size of the boolean mask (which equals
the length of time) with zero rather than the number of selected points,
so the reduction runs on an empty selection and yields NaN (modelled
.ok none), the mean of an empty slice. -/
theorem fit_eclipse_bottom_no_samples_nan (asin sq : ℚ → ℚ) (piv : ℚ)
    (inT : List ℚ → ℚ → ℚ → ℚ → List Bool)
    (time : List ℚ) (data : List (Option ℚ)) (params : Params)
    (hin : ∀ t te p hd, inT t te p hd = List.replicate t.length false)
    (hne : time ≠ []) :
    fit_eclipse_bottom asin sq piv inT time data params "mean" = .ok none := by
  have hlen : 0 < time.length := List.length_pos.mpr hne
  unfold fit_eclipse_bottom fit_eclipse_bottom_go
  rw [if_pos rfl]
  simp only [hin]
  simp [filterMap_zip_replicate_false, hlen, npNanMean]
  rfl

/-- Witness for fit_eclipse_bottom_no_samples_nan at a concrete input. -/
theorem fit_eclipse_bottom_no_samples_nan_witness :
    fit_eclipse_bottom id id 1 (fun t _ _ _ => List.replicate t.length false)
      [0] [some 1] ⟨1, 0, 1 / 10, 0, 10⟩ "mean" = .ok none :=
  fit_eclipse_bottom_no_samples_nan id id 1
    (fun t _ _ _ => List.replicate t.length false) [0] [some 1]
    ⟨1, 0, 1 / 10, 0, 10⟩ (fun _ _ _ _ => rfl) (by simp)

/-- An error escaping bin_calc_func is a NameError. -/
theorem bin_calc_func_error (bc : String) (x : List ℚ) (e : PyError)
    (h : bin_calc_func bc x = .error e) : e = .nameError := by
  unfold bin_calc_func at h
  split_ifs at h
  all_goals simp_all

/-- An error escaping err_calc_func is a NameError. -/
theorem err_calc_func_error (ec : String) (x : List ℚ) (e : PyError)
    (h : err_calc_func ec x = .error e) : e = .nameError := by
  unfold err_calc_func at h
  split_ifs at h
  all_goals simp_all

/-- Every error escaping the candidate-center loop of bindata is a
NameError (the unbound selector name), never a ValueError. -/
theorem bindataLoop_error_name (time : List ℚ) (data : List (Option ℚ))
    (binsize : ℚ) (bc ec : String) :
    ∀ (tt : List ℚ) (e : PyError),
      bindataLoop time data binsize bc ec tt = .error e → e = .nameError := by
  intro tt
  induction tt with
  | nil => intro e h; simp [bindataLoop] at h
  | cons c rest ih =>
    intro e h
    simp only [bindataLoop] at h
    split at h
    · exact ih e h
    · split at h
      · exact ih e h
      · split at h
        · rename_i heq
          injection h with h1
          exact h1 ▸ bin_calc_func_error bc _ _ heq
        · split at h
          · rename_i heq
            injection h with h1
            exact h1 ▸ err_calc_func_error ec _ _ heq
          · split at h
            · rename_i heq
              injection h with h1
              exact h1 ▸ ih _ heq
            · simp at h

/-- Claim C4 (amended): transit_duration raises ValueError for a
which_duration outside its three literals, and fit_eclipse_bottom raises
ValueError synchronously for a zero_eclipse_method outside mean and
median; but median_boxcar_filter with endpoints other than reflect fails
with a NameError (an unbound local name), not an invalid-argument error,
and bindata never raises an invalid-argument error for out-of-set
bin_calc or err_calc selectors - on a non-empty time array with nonzero
binsize it either returns normally or fails with a NameError. -/
theorem selector_error_behavior :
    (∀ (asin sq : ℚ → ℚ) (piv : ℚ) (params : Params) (wd : String),
      wd ≠ "full" → wd ≠ "center" → wd ≠ "short" →
      transit_duration asin sq piv params wd = .error .valueError) ∧
    (∀ (asin sq : ℚ → ℚ) (piv : ℚ)
      (inT : List ℚ → ℚ → ℚ → ℚ → List Bool)
      (time : List ℚ) (data : List (Option ℚ)) (params : Params) (m : String),
      m ≠ "mean" → m ≠ "median" →
      fit_eclipse_bottom asin sq piv inT time data params m =
        .error .valueError) ∧
    (∀ (data : List ℚ) (w : ℕ) (ep : String), ep ≠ "reflect" →
      median_boxcar_filter data w ep = .error .nameError) ∧
    (∀ (time : List ℚ) (data : List (Option ℚ)) (binsize : ℚ)
      (bc ec : String), time ≠ [] → binsize ≠ 0 →
      bindata time data binsize bc ec ≠ .error .valueError) := by
  refine ⟨?_, ?_, ?_, ?_⟩
  · intro asin sq piv params wd h1 h2 h3
    unfold transit_duration
    rw [if_neg h1, if_neg h2, if_neg h3]
  · intro asin sq piv inT time data params m h1 h2
    unfold fit_eclipse_bottom
    rw [if_neg h1, if_neg h2]
  · intro data w ep h
    unfold median_boxcar_filter
    rw [if_neg h]
  · intro time data binsize bc ec hne hb h
    unfold bindata at h
    rw [if_neg (by simpa using hne), if_neg hb] at h
    have := bindataLoop_error_name time data binsize bc ec _ _ h
    cases this

/-- Witness for selector_error_behavior at concrete inputs. -/
theorem selector_error_behavior_witness :
    transit_duration id id 1 ⟨1, 0, 1 / 10, 0, 10⟩ "bogus" =
      .error .valueError ∧
    fit_eclipse_bottom id id 1 (fun t _ _ _ => List.replicate t.length false)
      [0] [some 1] ⟨1, 0, 1 / 10, 0, 10⟩ "bogus" = .error .valueError ∧
    median_boxcar_filter [1, 2, 3] 1 "bogus" = .error .nameError ∧
    bindata [0] [some 1] 1 "bogus" "bogus" ≠ .error .valueError :=
  ⟨selector_error_behavior.1 id id 1 ⟨1, 0, 1 / 10, 0, 10⟩ "bogus"
      (by simp) (by simp) (by simp),
    selector_error_behavior.2.1 id id 1
      (fun t _ _ _ => List.replicate t.length false) [0] [some 1]
      ⟨1, 0, 1 / 10, 0, 10⟩ "bogus" (by simp) (by simp),
    selector_error_behavior.2.2.1 [1, 2, 3] 1 "bogus" (by simp),
    selector_error_behavior.2.2.2 [0] [some 1] 1 "bogus" "bogus"
      (by simp) (by simp)⟩

/-- Each normalised python slice endpoint is clamped into [0, length]. -/
theorem pySliceIdx_le (m : ℕ) (i : ℤ) : pySliceIdx m i ≤ m := by
  unfold pySliceIdx
  split
  all_goals omega

/-- Length of a python slice in terms of its normalised endpoints. -/
theorem pySlice_length {α : Type} (l : List α) (i j : ℤ) :
    (pySlice l i j).length =
      pySliceIdx l.length j - pySliceIdx l.length i := by
  have hj := pySliceIdx_le l.length j
  simp only [pySlice, List.length_take, List.length_drop]
  omega

/-- medfilt preserves the length of its input. -/
theorem medfilt_length (vol : List ℚ) (k : ℕ) :
    (medfilt vol k).length = vol.length := by
  simp [medfilt]

/-- Claim C6: for every data array and every positive window_length
smaller than the data length (even values included: they are normalised
to the next odd value), median_boxcar_filter with reflect endpoints
returns an array of exactly the length of the input. -/
theorem median_boxcar_filter_length (data : List ℚ) (window_length : ℕ)
    (h1 : 0 < window_length) (h2 : window_length < data.length) :
    (median_boxcar_filter data window_length "reflect").map List.length =
      .ok data.length := by
  unfold median_boxcar_filter
  rw [if_pos rfl]
  dsimp only
  simp only [Except.map]
  congr 1
  rw [pySlice_length, medfilt_length]
  simp only [List.length_append, List.length_reverse]
  rw [pySlice_length, pySlice_length]
  unfold pySliceIdx
  split_ifs
  all_goals omega

/-- Witness for median_boxcar_filter_length at a concrete input. -/
theorem median_boxcar_filter_length_witness :
    (median_boxcar_filter [1, 2, 3, 4] 2 "reflect").map List.length =
      .ok 4 :=
  median_boxcar_filter_length [1, 2, 3, 4] 2 (by decide) (by decide)

/-- For the two supported err_calc selectors, err_calc_func succeeds and
computes err_calc_sq. -/
theorem err_calc_func_eq_sq (ec : String) (x : List ℚ)
    (hec : ec = "mad" ∨ ec = "std") :
    err_calc_func ec x = .ok (err_calc_sq ec x) := by
  rcases hec with h | h
  · subst h; rfl
  · subst h; rfl

/-- Structural characterisation of a successful run of the bindata loop:
the emitted centers are exactly the candidate centers whose window holds
at least one valid (non-NaN) sample, the three output lists have equal
length, and (for a supported err_calc selector) each emitted error is the
bin's error estimate with the zero values floored to 1. -/
theorem bindataLoop_ok_spec (time : List ℚ) (data : List (Option ℚ))
    (binsize : ℚ) (bc ec : String) :
    ∀ (tt bt bd be : List ℚ),
      bindataLoop time data binsize bc ec tt = .ok (bt, bd, be) →
      bt = tt.filter (fun c => !(validSamples time data binsize c).isEmpty) ∧
      bt.length = bd.length ∧ bd.length = be.length ∧
      ((ec = "mad" ∨ ec = "std") →
        be = (tt.filter
            (fun c => !(validSamples time data binsize c).isEmpty)).map
          (fun c =>
            let e := err_calc_sq ec (validSamples time data binsize c)
            if e = 0 then 1 else e)) := by
  intro tt
  induction tt with
  | nil =>
    intro bt bd be h
    simp only [bindataLoop, Except.ok.injEq, Prod.mk.injEq] at h
    obtain ⟨rfl, rfl, rfl⟩ := h
    simp
  | cons c rest ih =>
    intro bt bd be h
    simp only [bindataLoop] at h
    split at h
    · rename_i hsel
      have hv : validSamples time data binsize c = [] := by
        unfold validSamples
        rw [List.isEmpty_iff.mp hsel]
        rfl
      obtain ⟨ih1, ih2, ih3, ih4⟩ := ih bt bd be h
      refine ⟨by simpa [List.filter_cons, hv] using ih1, ih2, ih3, fun hec =>
        by simpa [List.filter_cons, hv] using ih4 hec⟩
    · split at h
      · rename_i hcur
        have hv : validSamples time data binsize c = [] :=
          List.isEmpty_iff.mp hcur
        obtain ⟨ih1, ih2, ih3, ih4⟩ := ih bt bd be h
        refine ⟨by simpa [List.filter_cons, hv] using ih1, ih2, ih3, fun hec =>
          by simpa [List.filter_cons, hv] using ih4 hec⟩
      · rename_i hcur
        have hpc : (validSamples time data binsize c).isEmpty = false := by
          cases hb : (validSamples time data binsize c).isEmpty
          · rfl
          · exact absurd hb hcur
        split at h
        · simp at h
        · rename_i v hv
          split at h
          · simp at h
          · rename_i e he
            split at h
            · simp at h
            · rename_i bt' bd' be' heq
              simp only [Except.ok.injEq, Prod.mk.injEq] at h
              obtain ⟨hbt, hbd, hbe⟩ := h
              obtain ⟨ih1, ih2, ih3, ih4⟩ := ih bt' bd' be' heq
              refine ⟨?_, ?_, ?_, ?_⟩
              · rw [← hbt]
                simp [List.filter_cons, hpc, ih1]
              · rw [← hbt, ← hbd]
                simpa using ih2
              · rw [← hbd, ← hbe]
                simpa using ih3
              · intro hec
                rw [err_calc_func_eq_sq ec _ hec] at he
                injection he with he
                rw [← hbe, ← he]
                simp [List.filter_cons, hpc, ih4 hec]

/-- The values generated by npArange with a positive step are strictly
increasing. -/
theorem npArange_pairwise (start stop step : ℚ) (hstep : 0 < step) :
    (npArange start stop step).Pairwise (· < ·) := by
  unfold npArange
  rw [List.pairwise_map]
  refine (List.pairwise_lt_range _).imp ?_
  intro i j hij
  have hq : (i : ℚ) < (j : ℚ) := by exact_mod_cast hij
  have := mul_lt_mul_of_pos_right hq hstep
  linarith

/-- Every value generated by npArange with a positive step lies in the
half-open interval from start to stop. -/
theorem npArange_mem_bounds (start stop step : ℚ) (hstep : 0 < step)
    (x : ℚ) (hx : x ∈ npArange start stop step) : start ≤ x ∧ x < stop := by
  unfold npArange at hx
  simp only [List.mem_map, List.mem_range] at hx
  obtain ⟨i, hi, rfl⟩ := hx
  constructor
  · have h0 : (0 : ℚ) ≤ (i : ℚ) * step :=
      mul_nonneg (by positivity) hstep.le
    linarith
  · have h1 : (i : ℤ) < ⌈(stop - start) / step⌉ := Int.lt_toNat.mp hi
    have h2 : (i : ℚ) < (stop - start) / step := by
      exact_mod_cast Int.lt_ceil.mp h1
    have h3 : (i : ℚ) * step < stop - start := (lt_div_iff₀ hstep).mp h2
    linarith

/-- Claim C7: whenever bindata returns, the emitted centers are exactly the
candidate centers whose window holds at least one valid (non-NaN) sample -
a candidate bin whose selection is empty or all-NaN contributes no output
row, with no placeholder - and the three returned arrays have equal
length. -/
theorem bindata_skips_empty_bins (time : List ℚ) (data : List (Option ℚ))
    (binsize : ℚ) (bin_calc err_calc : String) (bt bd be : List ℚ)
    (h : bindata time data binsize bin_calc err_calc = .ok (bt, bd, be)) :
    bt = (bindataCandidates time binsize).filter
      (fun c => !(validSamples time data binsize c).isEmpty) ∧
    bt.length = bd.length ∧ bd.length = be.length := by
  unfold bindata at h
  split_ifs at h
  obtain ⟨h1, h2, h3, _⟩ :=
    bindataLoop_ok_spec time data binsize bin_calc err_calc _ _ _ _ h
  exact ⟨h1, h2, h3⟩

/-- Witness for bindata_skips_empty_bins at a concrete input: the window
of candidate center 1/2 contains only a NaN sample, so it is skipped, and
all three outputs are empty. -/
theorem bindata_skips_empty_bins_witness :
    ([] : List ℚ) = (bindataCandidates [0, 4] 1).filter
      (fun c => !(validSamples [0, 4] [none, some 2] 1 c).isEmpty) ∧
    ([] : List ℚ).length = ([] : List ℚ).length ∧
    ([] : List ℚ).length = ([] : List ℚ).length :=
  bindata_skips_empty_bins [0, 4] [none, some 2] 1 "median" "mad" [] [] []
    (by decide)

/-- Claim C5: in the squared encoding of the error channel, every emitted
binned_err entry equals 1 exactly when the bin's computed error estimate
is zero, and equals the computed estimate otherwise. -/
theorem bindata_error_floor (time : List ℚ) (data : List (Option ℚ))
    (binsize : ℚ) (bin_calc err_calc : String) (bt bd be : List ℚ)
    (hec : err_calc = "mad" ∨ err_calc = "std")
    (h : bindata time data binsize bin_calc err_calc = .ok (bt, bd, be)) :
    be = ((bindataCandidates time binsize).filter
        (fun c => !(validSamples time data binsize c).isEmpty)).map
      (fun c =>
        let e := err_calc_sq err_calc (validSamples time data binsize c)
        if e = 0 then 1 else e) := by
  unfold bindata at h
  split_ifs at h
  exact (bindataLoop_ok_spec time data binsize bin_calc err_calc
    _ _ _ _ h).2.2.2 hec

/-- Witness for bindata_error_floor at a concrete input: the single
emitted bin holds one sample, its mad-based error estimate is zero, and
the returned error entry is the floor value 1. -/
theorem bindata_error_floor_witness :
    ([1] : List ℚ) = ((bindataCandidates [0, 2] 1).filter
        (fun c => !(validSamples [0, 2] [some 5, some 7] 1 c).isEmpty)).map
      (fun c =>
        let e := err_calc_sq "mad" (validSamples [0, 2] [some 5, some 7] 1 c)
        if e = 0 then 1 else e) :=
  bindata_error_floor [0, 2] [some 5, some 7] 1 "median" "mad"
    [1 / 2] [5] [1] (Or.inl rfl) (by decide)

/-- Claim C8: for a non-empty time array and positive binsize, whenever
bindata returns, the binned_time output is non-decreasing and every entry
lies within the closed interval from the minimum to the maximum of the
time array. -/
theorem bindata_time_monotone (time : List ℚ) (data : List (Option ℚ))
    (binsize : ℚ) (bin_calc err_calc : String) (bt bd be : List ℚ)
    (hne : time ≠ []) (hpos : 0 < binsize)
    (h : bindata time data binsize bin_calc err_calc = .ok (bt, bd, be)) :
    bt.Pairwise (· ≤ ·) ∧ ∀ x ∈ bt, npMin time ≤ x ∧ x ≤ npMax time := by
  unfold bindata at h
  split_ifs at h
  obtain ⟨h1, -, -, -⟩ :=
    bindataLoop_ok_spec time data binsize bin_calc err_calc _ _ _ _ h
  have hsub : bt.Sublist (bindataCandidates time binsize) := by
    rw [h1]; exact List.filter_sublist _
  have hp : (bindataCandidates time binsize).Pairwise (· < ·) := by
    unfold bindataCandidates
    exact npArange_pairwise _ _ _ hpos
  constructor
  · exact (hp.sublist hsub).imp le_of_lt
  · intro x hx
    have hx' : x ∈ bindataCandidates time binsize := hsub.mem hx
    have hb := npArange_mem_bounds (npMin time + 0.5 * binsize)
      (npMax time - 0.5 * binsize) binsize hpos x hx'
    constructor
    · linarith [hb.1]
    · linarith [hb.2]

/-- Witness for bindata_time_monotone at a concrete input. -/
theorem bindata_time_monotone_witness :
    ([1 / 2, 3 / 2] : List ℚ).Pairwise (· ≤ ·) ∧
    ∀ x ∈ ([1 / 2, 3 / 2] : List ℚ),
      npMin [0, 1, 2, 3] ≤ x ∧ x ≤ npMax [0, 1, 2, 3] :=
  bindata_time_monotone [0, 1, 2, 3] [some 1, some 1, some 1, some 1] 1
    "median" "mad" [1 / 2, 3 / 2] [1, 1] [1, 1] (by simp) (by norm_num)
    (by decide)
